import Mathlib

/-!
Verification of the Habitat supervisor resilience layer: the launcher-client
IPC error taxonomy (`components/launcher-client/src/error.rs`) and the
self-update watcher (`components/sup/src/manager/self_updater.rs`).

External collaborator types (the launcher protocol error type, `NetErr`,
`io::Error`, bincode errors, `ipc_channel::Error`) are opaque to this layer:
they are only carried through, so they are modelled as string-carrying
structures. Version identifiers are compared through an external total order,
so the package-identifier type is a parameter with a `LinearOrder` instance.
-/

namespace Habitat

/-! ## Opaque external error carriers -/

/-- Opaque model of `habitat_launcher_protocol::Error`. -/
structure ProtocolError where
  msg : String
deriving DecidableEq, Repr

/-- Opaque model of `habitat_launcher_protocol::NetErr` (an application-level
negative acknowledgment reported by the launcher). -/
structure NetErr where
  msg : String
deriving DecidableEq, Repr

/-- Opaque model of `std::io::Error`. -/
structure IoError where
  msg : String
deriving DecidableEq, Repr

/-- Opaque model of a bincode (de)serialization error
(`Box<bincode::ErrorKind>`). -/
structure BincodeError where
  msg : String
deriving DecidableEq, Repr

/-- Opaque model of `ipc_channel::Error`. -/
structure IpcChannelError where
  msg : String
deriving DecidableEq, Repr

/-- `ipc_channel::ipc::IpcError` (external transport error): a bincode fault,
an io fault, or a pure disconnection. -/
inductive IpcError where
  | Bincode (err : BincodeError)
  | Io (err : IoError)
  | Disconnected
deriving DecidableEq, Repr

/-! ## The error taxonomy of `launcher-client/src/error.rs` -/

/-- `IPCReadError`: errors reading an IPC response from the launcher. -/
inductive IPCReadError where
  | ProtocolDeserialize (err : ProtocolError)
  | PayloadDeserialize (err : ProtocolError)
  | LauncherCommand (err : NetErr)
deriving DecidableEq, Repr

/-- `SendError`: errors sending a command to the launcher via IPC. -/
inductive SendError where
  | ProtocolSerialize (err : ProtocolError)
  | PayloadSerialize (err : ProtocolError)
  | IPCSend (err : IpcChannelError)
deriving DecidableEq, Repr

/-- `IPCError`: compatibility wrapper around `ipc_channel::ipc::IpcError`,
needed because the wrapped type does not implement `std::error::Error`
before ipc-channel 0.16. -/
structure IPCError where
  val : IpcError
deriving DecidableEq, Repr

/-- `ReceiveError`: errors of the blocking receive of a command response. -/
inductive ReceiveError where
  | IPCRead (err : IPCReadError)
  | IPCReceive (err : IPCError)
deriving DecidableEq, Repr

/-- `TryReceiveError`: errors of the non-blocking (deadline-bound) receive of
a command response. -/
inductive TryReceiveError where
  | IPCRead (err : IPCReadError)
  | IPCReceive (err : IPCError)
  | Timeout
deriving DecidableEq, Repr

/-- `ConnectError`: errors establishing the IPC connection to the launcher. -/
inductive ConnectError where
  | LauncherUnreachable (err : IoError)
  | IPCServerStartup (err : IoError)
  | IPCIncomingConnection (err : IpcChannelError)
  | LauncherRegisterSend (err : SendError)
  | LauncherRegisterReceive (err : IPCReadError)
deriving DecidableEq, Repr

/-- `IPCCommandError`: errors of remotely executing a named command on the
launcher; each variant carries the `&'static str` command name. -/
inductive IPCCommandError where
  | Send (cmd : String) (err : SendError)
  | Receive (cmd : String) (err : ReceiveError)
deriving DecidableEq, Repr

/-- `TryIPCCommandError`: errors of trying to remotely execute a named command
on the launcher; each variant carries the `&'static str` command name. -/
inductive TryIPCCommandError where
  | Send (cmd : String) (err : SendError)
  | TryReceive (cmd : String) (err : TryReceiveError)
deriving DecidableEq, Repr

/-- The command name carried by an `IPCCommandError`, recovered from the
error value alone. -/
def IPCCommandError.commandName : IPCCommandError → String
  | .Send cmd _ => cmd
  | .Receive cmd _ => cmd

/-- The command name carried by a `TryIPCCommandError`, recovered from the
error value alone. -/
def TryIPCCommandError.commandName : TryIPCCommandError → String
  | .Send cmd _ => cmd
  | .TryReceive cmd _ => cmd

/-- The `&dyn std::error::Error` view of the causes that
`IPCError::source` can expose. -/
inductive DynError where
  | Bincode (err : BincodeError)
  | Io (err : IoError)
deriving DecidableEq, Repr

/-- `impl std::error::Error for IPCError`: the optional underlying cause. -/
def IPCError.source : IPCError → Option DynError
  | ⟨IpcError.Bincode err⟩ => some (DynError.Bincode err)
  | ⟨IpcError.Io err⟩ => some (DynError.Io err)
  | ⟨IpcError.Disconnected⟩ => none

/-- `impl fmt::Display for IPCError`: the rendered message. -/
def IPCError.displayMessage : IPCError → String
  | ⟨IpcError.Bincode err⟩ => "bincode error: " ++ err.msg
  | ⟨IpcError.Io err⟩ => "io error: " ++ err.msg
  | ⟨IpcError.Disconnected⟩ => "disconnected"

/-! ## Self-update watcher (`sup/src/manager/self_updater.rs`)

The package-identifier type `Ident` (`PackageIdent`) is a parameter with a
`LinearOrder` instance, modelling the total order on version identifiers
provided by `habitat_core`. `Duration` is modelled as its value in seconds,
a rational number. The installer collaborator
(`util::pkg::install_no_ui`) is modelled by a trace of its results, one per
loop iteration. -/

/-- `SUP_PKG_IDENT`. -/
def SUP_PKG_IDENT : String := "core/hab-sup"

/-- `PackageInstall`: an installed package; `ident()` is its identifier. -/
structure PackageInstall (Ident : Type) where
  ident : Ident
deriving DecidableEq, Repr

/-- The state of a tokio one-shot channel as seen through its receiver:
`value` if the sender has sent and the value is still pending, `empty` if the
sender half is alive and nothing has been sent, `closed` if the sender half is
gone without a pending value (the sender was dropped, or the value was
already consumed). -/
inductive OneshotState (α : Type) where
  | value (a : α)
  | empty
  | closed
deriving DecidableEq, Repr

/-- Result of `tokio::sync::oneshot::Receiver::try_recv`: `ok` a value,
or an error `TryRecvError::Empty` / `TryRecvError::Closed`. -/
inductive TryRecvResult (α : Type) where
  | ok (a : α)
  | empty
  | closed
deriving DecidableEq, Repr

/-- `try_recv` on a one-shot receiver: non-blocking; yields the pending value
(and the channel is closed afterwards), or reports `Empty` or `Closed`. -/
def tryRecv {α : Type} : OneshotState α → TryRecvResult α × OneshotState α
  | .value a => (.ok a, .closed)
  | .empty => (.empty, .empty)
  | .closed => (.closed, .closed)

/-- `tokio::sync::oneshot::Sender::send`: succeeds iff the receiver half is
still alive; otherwise the value is handed back as the error. -/
def oneshotSend {α : Type} (receiverAlive : Bool) (a : α) : Except α Unit :=
  if receiverAlive then Except.ok () else Except.error a

/-- `SelfUpdater`: the watcher state owned by the main process. -/
structure SelfUpdater (Ident : Type) where
  rx : OneshotState (PackageInstall Ident)
  current : Ident
  update_url : String
  update_channel : String
  period : ℚ
deriving DecidableEq, Repr

/-- `Runner`: the subset of `SelfUpdater` data snapshotted to spawn the
updater task. -/
structure Runner (Ident : Type) where
  current : Ident
  update_url : String
  update_channel : String
  period : ℚ
deriving DecidableEq, Repr

/-- `impl<T: Borrow<SelfUpdater>> From<T> for Runner`: clone the four
configuration fields out of the watcher. -/
def Runner.ofUpdater {Ident : Type} (other : SelfUpdater Ident) : Runner Ident :=
  ⟨other.current, other.update_url, other.update_channel, other.period⟩

/-- `SelfUpdater::new`: build the `Runner` snapshot from the arguments, spawn
the task (`Self::init`), store the fresh receiver. The returned pair is the
watcher state together with the `Runner` the spawned task was configured
with. -/
def SelfUpdater.new {Ident : Type} (current : Ident) (update_url : String)
    (update_channel : String) (period : ℚ) : SelfUpdater Ident × Runner Ident :=
  (⟨OneshotState.empty, current, update_url, update_channel, period⟩,
   ⟨current, update_url, update_channel, period⟩)

/-- `SelfUpdater::updated`: non-blocking poll. Returns the received package
(if any), the successor watcher state, and the `Runner` configuration of the
background task respawned by `Self::init(self.into())` in the `Closed` case
(`none` when no task is spawned). It is a total function into `Option`:
it never blocks and never propagates an error. -/
def SelfUpdater.updated {Ident : Type} (s : SelfUpdater Ident) :
    Option (PackageInstall Ident) × SelfUpdater Ident × Option (Runner Ident) :=
  match tryRecv s.rx with
  | (.ok package, rxNew) => (some package, { s with rx := rxNew }, none)
  | (.empty, rxNew) => (none, { s with rx := rxNew }, none)
  | (.closed, _) =>
      (none, { s with rx := OneshotState.empty }, some (Runner.ofUpdater s))

/-- Observable actions of the background task `SelfUpdater::run`, in order:
timer delays (`tokio::time::delay_for`, in seconds), the one-shot send, the
`expect` panic when the send fails, and the log statements the loop emits. -/
inductive Action (Ident E : Type) where
  | delay (d : ℚ)
  | send (p : PackageInstall Ident)
  | panicMainGone
  | logInstalling (i : Ident)
  | logNotNewer
  | logWarn (err : E)
  | logTraceDelay (d : ℚ)
deriving DecidableEq, Repr

/-- How a (finite prefix of a) background-task execution ended: the task sent
its signal and broke out of the loop, the task panicked at the `expect`, or
the task is still looping after consuming the whole installer trace. -/
inductive RunStatus where
  | signaled
  | panicked
  | running
deriving DecidableEq, Repr

/-- The loop of `SelfUpdater::run`, driven by the trace of results of the
installer collaborator `util::pkg::install_no_ui`, one per iteration.
`rxAlive` tells whether the receiver half of the one-shot channel is still
alive when `tx.send` happens. Each iteration: on `Ok(package)` with
`current < package.ident()`, log, send (panicking if the send fails) and
break; on a not-newer package, log and fall through; on `Err`, log a warning
and fall through; falling through delays for `period` and iterates. -/
def runLoop {Ident E : Type} [LinearOrder Ident] (rxAlive : Bool) (current : Ident)
    (period : ℚ) :
    List (Except E (PackageInstall Ident)) → List (Action Ident E) × RunStatus
  | [] => ([], RunStatus.running)
  | Except.ok package :: rest =>
      if current < package.ident then
        match oneshotSend rxAlive package with
        | Except.ok _ =>
            ([Action.logInstalling package.ident, Action.send package],
             RunStatus.signaled)
        | Except.error _ =>
            ([Action.logInstalling package.ident, Action.panicMainGone],
             RunStatus.panicked)
      else
        let next := runLoop rxAlive current period rest
        (Action.logNotNewer :: Action.logTraceDelay period ::
           Action.delay period :: next.1,
         next.2)
  | Except.error err :: rest =>
      let next := runLoop rxAlive current period rest
      (Action.logWarn err :: Action.logTraceDelay period ::
         Action.delay period :: next.1,
       next.2)

/-- `rand::Rng::gen_range(low, high)` on floats, modelled over ℚ: the affine
image of a uniform sample `u` drawn from `[0, 1)`. -/
def genRange (u low high : ℚ) : ℚ := low + u * (high - low)

/-- `SelfUpdater::run`: draw the splay `gen_range(0.0, period)` from the
uniform sample `u`, delay for it once, then enter the loop. -/
def run {Ident E : Type} [LinearOrder Ident] (rxAlive : Bool) (runner : Runner Ident)
    (u : ℚ) (results : List (Except E (PackageInstall Ident))) :
    List (Action Ident E) × RunStatus :=
  let splay := genRange u 0 runner.period
  let body := runLoop rxAlive runner.current runner.period results
  (Action.delay splay :: body.1, body.2)

/-- The packages sent on the one-shot channel during a list of actions. -/
def sentPackages {Ident E : Type} (actions : List (Action Ident E)) :
    List (PackageInstall Ident) :=
  actions.filterMap fun a =>
    match a with
    | Action.send p => some p
    | _ => none

/-- The timer delays performed during a list of actions, in order. -/
def delays {Ident E : Type} (actions : List (Action Ident E)) : List ℚ :=
  actions.filterMap fun a =>
    match a with
    | Action.delay d => some d
    | _ => none

/-- One `updated` poll, keeping only the successor watcher state. -/
def pollStep {Ident : Type} (s : SelfUpdater Ident) : SelfUpdater Ident :=
  (s.updated).2.1

/-- Events a watcher state is subject to after construction: a poll by the
main loop (`updated`), or a transition of the one-shot channel performed by
the environment (the background task sending its value, or dying and thereby
closing the channel). -/
inductive WatchEvent (Ident : Type) where
  | poll
  | chan (st : OneshotState (PackageInstall Ident))

/-- Run a watcher state through a sequence of events. -/
def evolve {Ident : Type} (s : SelfUpdater Ident) :
    List (WatchEvent Ident) → SelfUpdater Ident
  | [] => s
  | WatchEvent.poll :: es => evolve (pollStep s) es
  | WatchEvent.chan st :: es => evolve { s with rx := st } es

/-! ## Theorems -/

/-- Claim C2: a blocking-receive failure is exactly a read failure (itself
exactly one of envelope deserialization, payload deserialization, or a
command rejection) or a transport failure; a non-blocking-receive failure
additionally admits exactly the timeout cause and nothing else; and a
transport disconnection is never the timeout variant. -/
theorem receive_error_taxonomy_closed :
    (∀ e : ReceiveError,
        (∃ r, e = ReceiveError.IPCRead r) ∨ (∃ t, e = ReceiveError.IPCReceive t))
    ∧ (∀ r : IPCReadError,
        (∃ pe, r = IPCReadError.ProtocolDeserialize pe)
        ∨ (∃ pe, r = IPCReadError.PayloadDeserialize pe)
        ∨ (∃ n, r = IPCReadError.LauncherCommand n))
    ∧ (∀ e : TryReceiveError,
        (∃ r, e = TryReceiveError.IPCRead r)
        ∨ (∃ t, e = TryReceiveError.IPCReceive t)
        ∨ e = TryReceiveError.Timeout)
    ∧ (∀ t : IPCError, TryReceiveError.IPCReceive t ≠ TryReceiveError.Timeout) := by
  refine ⟨?_, ?_, ?_, ?_⟩
  · intro e
    cases e with
    | IPCRead r => exact Or.inl ⟨r, rfl⟩
    | IPCReceive t => exact Or.inr ⟨t, rfl⟩
  · intro r
    cases r with
    | ProtocolDeserialize pe => exact Or.inl ⟨pe, rfl⟩
    | PayloadDeserialize pe => exact Or.inr (Or.inl ⟨pe, rfl⟩)
    | LauncherCommand n => exact Or.inr (Or.inr ⟨n, rfl⟩)
  · intro e
    cases e with
    | IPCRead r => exact Or.inl ⟨r, rfl⟩
    | IPCReceive t => exact Or.inr (Or.inl ⟨t, rfl⟩)
    | Timeout => exact Or.inr (Or.inr rfl)
  · intro t h
    exact TryReceiveError.noConfusion h

/-- Claim C8: every send and receive error variant of the command-layer
operations (`IPCCommandError`, `TryIPCCommandError`) carries the triggering
command's name, and `commandName` recovers it from the error value alone. -/
theorem command_errors_retain_name :
    (∀ (cmd : String) (err : SendError),
        (IPCCommandError.Send cmd err).commandName = cmd)
    ∧ (∀ (cmd : String) (err : ReceiveError),
        (IPCCommandError.Receive cmd err).commandName = cmd)
    ∧ (∀ (cmd : String) (err : SendError),
        (TryIPCCommandError.Send cmd err).commandName = cmd)
    ∧ (∀ (cmd : String) (err : TryReceiveError),
        (TryIPCCommandError.TryReceive cmd err).commandName = cmd)
    ∧ (∀ e : IPCCommandError,
        (∃ err, e = IPCCommandError.Send e.commandName err)
        ∨ (∃ err, e = IPCCommandError.Receive e.commandName err))
    ∧ (∀ e : TryIPCCommandError,
        (∃ err, e = TryIPCCommandError.Send e.commandName err)
        ∨ (∃ err, e = TryIPCCommandError.TryReceive e.commandName err)) := by
  refine ⟨fun _ _ => rfl, fun _ _ => rfl, fun _ _ => rfl, fun _ _ => rfl, ?_, ?_⟩
  · intro e
    cases e with
    | Send cmd err => exact Or.inl ⟨err, rfl⟩
    | Receive cmd err => exact Or.inr ⟨err, rfl⟩
  · intro e
    cases e with
    | Send cmd err => exact Or.inl ⟨err, rfl⟩
    | TryReceive cmd err => exact Or.inr ⟨err, rfl⟩

/-- Claim C9: the `IPCError` compatibility wrapper exposes the wrapped
bincode or io fault as its cause and exposes no cause for a pure
disconnection, and its displayed message describes the variant (the three
variants render with pairwise distinct messages). -/
theorem ipc_error_wrapper_cause :
    (∀ err : BincodeError,
        (IPCError.mk (IpcError.Bincode err)).source = some (DynError.Bincode err))
    ∧ (∀ err : IoError,
        (IPCError.mk (IpcError.Io err)).source = some (DynError.Io err))
    ∧ (IPCError.mk IpcError.Disconnected).source = none
    ∧ (∀ err : BincodeError,
        (IPCError.mk (IpcError.Bincode err)).displayMessage
          = "bincode error: " ++ err.msg)
    ∧ (∀ err : IoError,
        (IPCError.mk (IpcError.Io err)).displayMessage = "io error: " ++ err.msg)
    ∧ (IPCError.mk IpcError.Disconnected).displayMessage = "disconnected"
    ∧ (∀ (b : BincodeError) (i : IoError),
        (IPCError.mk (IpcError.Bincode b)).displayMessage
          ≠ (IPCError.mk (IpcError.Io i)).displayMessage)
    ∧ (∀ b : BincodeError,
        (IPCError.mk (IpcError.Bincode b)).displayMessage
          ≠ (IPCError.mk IpcError.Disconnected).displayMessage)
    ∧ (∀ i : IoError,
        (IPCError.mk (IpcError.Io i)).displayMessage
          ≠ (IPCError.mk IpcError.Disconnected).displayMessage) := by
  refine ⟨fun _ => rfl, fun _ => rfl, rfl, fun _ => rfl, fun _ => rfl, rfl, ?_, ?_, ?_⟩
  · intro b i h
    have hh : (some 'b' : Option Char) = some 'i' :=
      congrArg (fun s => s.data.head?) h
    exact absurd (Option.some.inj hh) (by decide)
  · intro b h
    have hh : (some 'b' : Option Char) = some 'd' :=
      congrArg (fun s => s.data.head?) h
    exact absurd (Option.some.inj hh) (by decide)
  · intro i h
    have hh : (some 'i' : Option Char) = some 'd' :=
      congrArg (fun s => s.data.head?) h
    exact absurd (Option.some.inj hh) (by decide)

/-- Claim C1: the non-blocking poll `updated` returns the installed package
when the one-shot channel holds a value (and the receiver is closed
afterwards), returns `none` when the channel is open but empty, and when the
channel is observed closed it replaces the stored receiver with the fresh
one of a newly spawned background task (configured by `Runner::from(self)`)
and still returns `none`; being a total function into `Option`, it never
blocks and never propagates an error. -/
theorem updated_poll_cases {Ident : Type} (s : SelfUpdater Ident)
    (p : PackageInstall Ident) :
    SelfUpdater.updated { s with rx := OneshotState.value p }
        = (some p, { s with rx := OneshotState.closed }, none)
    ∧ SelfUpdater.updated { s with rx := OneshotState.empty }
        = (none, { s with rx := OneshotState.empty }, none)
    ∧ SelfUpdater.updated { s with rx := OneshotState.closed }
        = (none, { s with rx := OneshotState.empty },
           some (Runner.ofUpdater s)) :=
  ⟨rfl, rfl, rfl⟩

/-! ### Helper lemmas about the background-task loop -/

theorem runLoop_sends_le_one {Ident E : Type} [LinearOrder Ident] (rxAlive : Bool)
    (current : Ident) (period : ℚ)
    (results : List (Except E (PackageInstall Ident))) :
    (sentPackages (runLoop rxAlive current period results).1).length ≤ 1 := by
  induction results with
  | nil => simp [runLoop, sentPackages]
  | cons res rest ih =>
      cases res with
      | ok package =>
          by_cases h : current < package.ident
          · cases rxAlive with
            | true => simp [runLoop, oneshotSend, h, sentPackages]
            | false => simp [runLoop, oneshotSend, h, sentPackages]
          · simpa [runLoop, h, sentPackages] using ih
      | error err => simpa [runLoop, sentPackages] using ih

theorem runLoop_signaled_iff {Ident E : Type} [LinearOrder Ident]
    (current : Ident) (period : ℚ)
    (results : List (Except E (PackageInstall Ident))) :
    (runLoop true current period results).2 = RunStatus.signaled ↔
      (sentPackages (runLoop true current period results).1).length = 1 := by
  induction results with
  | nil => simp [runLoop, sentPackages]
  | cons res rest ih =>
      cases res with
      | ok package =>
          by_cases h : current < package.ident
          · simp [runLoop, oneshotSend, h, sentPackages]
          · simpa [runLoop, h, sentPackages] using ih
      | error err => simpa [runLoop, sentPackages] using ih

theorem runLoop_alive_ne_panicked {Ident E : Type} [LinearOrder Ident]
    (current : Ident) (period : ℚ)
    (results : List (Except E (PackageInstall Ident))) :
    (runLoop true current period results).2 ≠ RunStatus.panicked := by
  induction results with
  | nil => simp [runLoop]
  | cons res rest ih =>
      cases res with
      | ok package =>
          by_cases h : current < package.ident
          · simp [runLoop, oneshotSend, h]
          · simpa [runLoop, h] using ih
      | error err => simpa [runLoop] using ih

theorem runLoop_delay_eq_period {Ident E : Type} [LinearOrder Ident] (rxAlive : Bool)
    (current : Ident) (period : ℚ)
    (results : List (Except E (PackageInstall Ident))) (d : ℚ) :
    Action.delay d ∈ (runLoop rxAlive current period results).1 → d = period := by
  induction results with
  | nil => simp [runLoop]
  | cons res rest ih =>
      cases res with
      | ok package =>
          by_cases h : current < package.ident
          · cases rxAlive with
            | true => simp [runLoop, oneshotSend, h]
            | false => simp [runLoop, oneshotSend, h]
          · intro hmem
            rw [runLoop] at hmem
            simp only [h, if_false, List.mem_cons] at hmem
            rcases hmem with h1 | h1 | h1 | h1
            · exact Action.noConfusion h1
            · exact Action.noConfusion h1
            · exact (Action.delay.inj h1)
            · exact ih h1
      | error err =>
          intro hmem
          rw [runLoop] at hmem
          simp only [List.mem_cons] at hmem
          rcases hmem with h1 | h1 | h1 | h1
          · exact Action.noConfusion h1
          · exact Action.noConfusion h1
          · exact (Action.delay.inj h1)
          · exact ih h1

theorem mem_delays {Ident E : Type} (actions : List (Action Ident E)) (d : ℚ) :
    d ∈ delays actions ↔ Action.delay d ∈ actions := by
  induction actions with
  | nil => simp [delays]
  | cons a rest ih =>
      cases a <;> simp [delays, List.filterMap_cons] <;>
        rw [← ih] <;> simp [delays]

/-- Claim C3: with the receiver alive, an iteration whose installer result is
a package strictly newer than `current` logs, sends that package and
terminates the loop with status `signaled`, ignoring the rest of the trace;
over any trace at most one package is ever sent, the loop reaches `signaled`
exactly when one send happened (the sole exit), and it never panics. -/
theorem run_signals_once {Ident E : Type} [LinearOrder Ident] (current : Ident)
    (period : ℚ) (package : PackageInstall Ident)
    (rest results : List (Except E (PackageInstall Ident)))
    (hnew : current < package.ident) :
    runLoop true current period (Except.ok package :: rest)
        = ([Action.logInstalling package.ident, Action.send package],
           RunStatus.signaled)
    ∧ sentPackages
        (runLoop true current period (Except.ok package :: rest)).1 = [package]
    ∧ (sentPackages (runLoop true current period results).1).length ≤ 1
    ∧ ((runLoop true current period results).2 = RunStatus.signaled ↔
        (sentPackages (runLoop true current period results).1).length = 1)
    ∧ (runLoop true current period results).2 ≠ RunStatus.panicked := by
  refine ⟨?_, ?_, runLoop_sends_le_one true current period results,
          runLoop_signaled_iff current period results,
          runLoop_alive_ne_panicked current period results⟩
  · simp [runLoop, oneshotSend, hnew]
  · simp [runLoop, oneshotSend, hnew, sentPackages]

/-- Witness for `run_signals_once` at a concrete input. -/
theorem run_signals_once_witness :
    (0 : ℕ) < (PackageInstall.mk 1 : PackageInstall ℕ).ident
    ∧ (runLoop true (0 : ℕ) 1
          [(Except.ok (PackageInstall.mk 1) : Except Unit (PackageInstall ℕ))]
        = ([Action.logInstalling 1, Action.send (PackageInstall.mk 1)],
           RunStatus.signaled)
      ∧ sentPackages
          (runLoop true (0 : ℕ) 1
            [(Except.ok (PackageInstall.mk 1) :
                Except Unit (PackageInstall ℕ))]).1 = [PackageInstall.mk 1]
      ∧ (sentPackages (runLoop true (0 : ℕ) 1
            ([] : List (Except Unit (PackageInstall ℕ)))).1).length ≤ 1
      ∧ ((runLoop true (0 : ℕ) 1
            ([] : List (Except Unit (PackageInstall ℕ)))).2 = RunStatus.signaled ↔
          (sentPackages (runLoop true (0 : ℕ) 1
            ([] : List (Except Unit (PackageInstall ℕ)))).1).length = 1)
      ∧ (runLoop true (0 : ℕ) 1
            ([] : List (Except Unit (PackageInstall ℕ)))).2
          ≠ RunStatus.panicked) :=
  ⟨by decide,
   run_signals_once 0 1 (PackageInstall.mk 1) [] [] (by decide)⟩

/-- Claim C5: an iteration whose installer result is a package not strictly
newer than `current` sends nothing (it only logs), and the loop proceeds to
its next installer attempt only after a full `poll_period` delay. -/
theorem run_stale_no_send {Ident E : Type} [LinearOrder Ident] (rxAlive : Bool)
    (current : Ident) (period : ℚ) (package : PackageInstall Ident)
    (rest : List (Except E (PackageInstall Ident)))
    (hstale : ¬ current < package.ident) :
    runLoop rxAlive current period (Except.ok package :: rest)
        = (Action.logNotNewer :: Action.logTraceDelay period ::
             Action.delay period :: (runLoop rxAlive current period rest).1,
           (runLoop rxAlive current period rest).2)
    ∧ sentPackages (runLoop rxAlive current period (Except.ok package :: rest)).1
        = sentPackages (runLoop rxAlive current period rest).1
    ∧ (delays (runLoop rxAlive current period
          (Except.ok package :: rest)).1).head? = some period := by
  refine ⟨?_, ?_, ?_⟩
  · simp [runLoop, hstale]
  · simp [runLoop, hstale, sentPackages]
  · simp [runLoop, hstale, delays]

/-- Witness for `run_stale_no_send` at a concrete input. -/
theorem run_stale_no_send_witness :
    ¬ (1 : ℕ) < (PackageInstall.mk 1 : PackageInstall ℕ).ident
    ∧ (runLoop true (1 : ℕ) 1
          [(Except.ok (PackageInstall.mk 1) : Except Unit (PackageInstall ℕ))]
        = (Action.logNotNewer :: Action.logTraceDelay 1 :: Action.delay 1 ::
             (runLoop true (1 : ℕ) 1
               ([] : List (Except Unit (PackageInstall ℕ)))).1,
           (runLoop true (1 : ℕ) 1
             ([] : List (Except Unit (PackageInstall ℕ)))).2)
      ∧ sentPackages (runLoop true (1 : ℕ) 1
            [(Except.ok (PackageInstall.mk 1) :
                Except Unit (PackageInstall ℕ))]).1
          = sentPackages (runLoop true (1 : ℕ) 1
              ([] : List (Except Unit (PackageInstall ℕ)))).1
      ∧ (delays (runLoop true (1 : ℕ) 1
            [(Except.ok (PackageInstall.mk 1) :
                Except Unit (PackageInstall ℕ))]).1).head? = some 1) :=
  ⟨by decide, run_stale_no_send true 1 1 (PackageInstall.mk 1) [] (by decide)⟩

/-- Claim C6: an iteration whose installer call fails logs the failure and
continues the loop after the `poll_period` delay: it sends nothing, and the
final status of the run is that of the remaining trace, so an installer
failure never terminates the task and never surfaces beyond the log. -/
theorem run_installer_failure_continues {Ident E : Type} [LinearOrder Ident]
    (rxAlive : Bool) (current : Ident) (period : ℚ) (err : E)
    (rest : List (Except E (PackageInstall Ident))) :
    runLoop rxAlive current period (Except.error err :: rest)
        = (Action.logWarn err :: Action.logTraceDelay period ::
             Action.delay period :: (runLoop rxAlive current period rest).1,
           (runLoop rxAlive current period rest).2)
    ∧ sentPackages
        (runLoop rxAlive current period (Except.error err :: rest)).1
        = sentPackages (runLoop rxAlive current period rest).1
    ∧ (delays (runLoop rxAlive current period
          (Except.error err :: rest)).1).head? = some period := by
  refine ⟨?_, ?_, ?_⟩
  · simp [runLoop]
  · simp [runLoop, sentPackages]
  · simp [runLoop, delays]

/-- Claim C7: if the one-shot send fails because the receiving half has been
dropped (`oneshotSend` hands the package back as an error), the background
task panics (`expect`) instead of ignoring the failure or continuing: the
run terminates with status `panicked` and its last action is the panic. -/
theorem run_send_failure_panics {Ident E : Type} [LinearOrder Ident]
    (current : Ident) (period : ℚ) (package : PackageInstall Ident)
    (rest : List (Except E (PackageInstall Ident)))
    (hnew : current < package.ident) :
    oneshotSend false package = Except.error package
    ∧ runLoop false current period (Except.ok package :: rest)
        = ([Action.logInstalling package.ident, Action.panicMainGone],
           RunStatus.panicked) := by
  refine ⟨rfl, ?_⟩
  simp [runLoop, oneshotSend, hnew]

/-- Witness for `run_send_failure_panics` at a concrete input. -/
theorem run_send_failure_panics_witness :
    (0 : ℕ) < (PackageInstall.mk 1 : PackageInstall ℕ).ident
    ∧ (oneshotSend false (PackageInstall.mk 1 : PackageInstall ℕ)
        = Except.error (PackageInstall.mk 1)
      ∧ runLoop false (0 : ℕ) 1
          [(Except.ok (PackageInstall.mk 1) : Except Unit (PackageInstall ℕ))]
          = ([Action.logInstalling 1, Action.panicMainGone],
             RunStatus.panicked)) :=
  ⟨by decide, run_send_failure_panics 0 1 (PackageInstall.mk 1) [] (by decide)⟩

/-- Claim C4: for every poll period P > 0, the splay — drawn once, before the
first installer attempt — lies in `[0, P)`: never negative, never ≥ P; it is
the first delay the task performs, every later delay equals the poll period,
and the sampler maps the uniform source `[0, 1)` onto all of `[0, P)`. -/
theorem run_splay_range {Ident E : Type} [LinearOrder Ident] (rxAlive : Bool)
    (runner : Runner Ident) (u : ℚ)
    (results : List (Except E (PackageInstall Ident)))
    (hP : 0 < runner.period) (hu0 : 0 ≤ u) (hu1 : u < 1) :
    0 ≤ genRange u 0 runner.period
    ∧ genRange u 0 runner.period < runner.period
    ∧ (delays (run rxAlive runner u results).1).head?
        = some (genRange u 0 runner.period)
    ∧ (∀ d, d ∈ (delays (run rxAlive runner u results).1).tail →
        d = runner.period)
    ∧ (∀ y, 0 ≤ y → y < runner.period →
        ∃ v, 0 ≤ v ∧ v < 1 ∧ genRange v 0 runner.period = y) := by
  have hsplay : genRange u 0 runner.period = u * runner.period := by
    simp [genRange]
  refine ⟨?_, ?_, ?_, ?_, ?_⟩
  · rw [hsplay]
    exact mul_nonneg hu0 hP.le
  · rw [hsplay]
    calc u * runner.period < 1 * runner.period :=
          mul_lt_mul_of_pos_right hu1 hP
      _ = runner.period := one_mul _
  · simp [run, delays]
  · intro d hd
    have hd2 : d ∈ delays
        (runLoop rxAlive runner.current runner.period results).1 := by
      simpa [run, delays] using hd
    exact runLoop_delay_eq_period rxAlive runner.current runner.period results d
      ((mem_delays _ d).mp hd2)
  · intro y hy0 hy1
    refine ⟨y / runner.period,
            div_nonneg hy0 hP.le, (div_lt_one hP).mpr hy1, ?_⟩
    have hPne : runner.period ≠ 0 := ne_of_gt hP
    field_simp [genRange]

/-- Witness for `run_splay_range` at a concrete input. -/
theorem run_splay_range_witness :
    0 < (Runner.mk (0 : ℕ) "" "" 1).period ∧ (0 : ℚ) ≤ 0 ∧ (0 : ℚ) < 1
    ∧ (0 ≤ genRange 0 0 (Runner.mk (0 : ℕ) "" "" 1).period
      ∧ genRange 0 0 (Runner.mk (0 : ℕ) "" "" 1).period
          < (Runner.mk (0 : ℕ) "" "" 1).period
      ∧ (delays (run true (Runner.mk (0 : ℕ) "" "" 1) 0
            ([] : List (Except Unit (PackageInstall ℕ)))).1).head?
          = some (genRange 0 0 (Runner.mk (0 : ℕ) "" "" 1).period)
      ∧ (∀ d, d ∈ (delays (run true (Runner.mk (0 : ℕ) "" "" 1) 0
            ([] : List (Except Unit (PackageInstall ℕ)))).1).tail →
          d = (Runner.mk (0 : ℕ) "" "" 1).period)
      ∧ (∀ y, 0 ≤ y → y < (Runner.mk (0 : ℕ) "" "" 1).period →
          ∃ v, 0 ≤ v ∧ v < 1
            ∧ genRange v 0 (Runner.mk (0 : ℕ) "" "" 1).period = y)) :=
  ⟨by decide, by decide, by decide,
   run_splay_range true (Runner.mk 0 "" "" 1) 0 [] (by decide) (by decide)
     (by decide)⟩

/-! ### Frame lemmas for the poll operation -/

theorem pollStep_frame {Ident : Type} (s : SelfUpdater Ident) :
    (pollStep s).current = s.current
    ∧ (pollStep s).update_url = s.update_url
    ∧ (pollStep s).update_channel = s.update_channel
    ∧ (pollStep s).period = s.period := by
  cases s with
  | mk rx current update_url update_channel period =>
      cases rx <;> simp [pollStep, SelfUpdater.updated, tryRecv]

theorem evolve_frame {Ident : Type} (s : SelfUpdater Ident)
    (events : List (WatchEvent Ident)) :
    (evolve s events).current = s.current
    ∧ (evolve s events).update_url = s.update_url
    ∧ (evolve s events).update_channel = s.update_channel
    ∧ (evolve s events).period = s.period := by
  induction events generalizing s with
  | nil => exact ⟨rfl, rfl, rfl, rfl⟩
  | cons e es ih =>
      cases e with
      | poll =>
          have h1 := pollStep_frame s
          have h2 := ih (pollStep s)
          simp only [evolve]
          exact ⟨h2.1.trans h1.1, h2.2.1.trans h1.2.1,
                 h2.2.2.1.trans h1.2.2.1, h2.2.2.2.trans h1.2.2.2⟩
      | chan st =>
          have h2 := ih { s with rx := st }
          simp only [evolve]
          exact h2

theorem updated_spawn_cases {Ident : Type} (s : SelfUpdater Ident) :
    (s.updated).2.2 = none ∨ (s.updated).2.2 = some (Runner.ofUpdater s) := by
  cases s with
  | mk rx current update_url update_channel period =>
      cases rx <;> simp [SelfUpdater.updated, tryRecv]

/-- Claim C10: polling never modifies the watcher's current version, update
URL, update channel, or poll period — under any interleaving of polls and
channel transitions the four configuration fields keep their
construction-time values, only the receiver changes — and any background
task a poll respawns is configured from exactly the construction-time
`Runner` snapshot: in particular it still compares candidates against the
original current version. -/
theorem updated_frame {Ident : Type} (current : Ident)
    (update_url update_channel : String) (period : ℚ)
    (events : List (WatchEvent Ident)) :
    (evolve (SelfUpdater.new current update_url update_channel period).1
        events).current = current
    ∧ (evolve (SelfUpdater.new current update_url update_channel period).1
        events).update_url = update_url
    ∧ (evolve (SelfUpdater.new current update_url update_channel period).1
        events).update_channel = update_channel
    ∧ (evolve (SelfUpdater.new current update_url update_channel period).1
        events).period = period
    ∧ Runner.ofUpdater
        (evolve (SelfUpdater.new current update_url update_channel period).1
          events)
        = (SelfUpdater.new current update_url update_channel period).2
    ∧ (((evolve (SelfUpdater.new current update_url update_channel period).1
          events).updated).2.2 = none
      ∨ ((evolve (SelfUpdater.new current update_url update_channel period).1
          events).updated).2.2
          = some (SelfUpdater.new current update_url update_channel period).2) := by
  obtain ⟨h1, h2, h3, h4⟩ := evolve_frame
    (SelfUpdater.new current update_url update_channel period).1 events
  simp only [SelfUpdater.new] at h1 h2 h3 h4 ⊢
  have hrunner : Runner.ofUpdater
      (evolve ⟨OneshotState.empty, current, update_url, update_channel, period⟩
        events)
      = Runner.mk current update_url update_channel period := by
    simp [Runner.ofUpdater, h1, h2, h3, h4]
  refine ⟨h1, h2, h3, h4, hrunner, ?_⟩
  rcases updated_spawn_cases
    (evolve ⟨OneshotState.empty, current, update_url, update_channel, period⟩
      events) with hs | hs
  · exact Or.inl hs
  · exact Or.inr (hs.trans (congrArg some hrunner))

end Habitat
